import Mathlib

/-!
# Verification of the EDUGEN RAG pipeline (`src/app/rag/rag.py`)

Shallow embedding of the retrieval-augmented-generation pipeline:
`get_pdf_text`, `get_text_chunks`, `get_vector_store` (ingestion) and
`process_question`, `process_question_simple` (query), together with the
spec-level model of the third-party text splitter and vector-index search
that the source wires together.

Python strings are modelled as `List Char`; Python exceptions as an
explicit error type returned through `Except`; the persisted FAISS index
at the module's fixed `faiss_index` location as an `Option` cell threaded
through the ingest pipeline.  External backends (PDF reader, embedding
model, completion endpoint) are parameters of an environment structure,
since their code is not part of this repository.
-/

/-- Python `str`, modelled as a list of characters. -/
abbrev Str := List Char

/-- Whitespace recognised by Python's `str.strip()` (ASCII subset). -/
def isPySpace (c : Char) : Bool :=
  c = ' ' || c = '\t' || c = '\n' || c = '\r' || c = '\x0b' || c = '\x0c'

/-- Python `str.strip()`: drop leading and trailing whitespace. -/
def pyStrip (s : Str) : Str :=
  ((s.dropWhile isPySpace).reverse.dropWhile isPySpace).reverse

/-- Python `sep.join(xs)`. -/
def joinSep (sep : Str) : List Str → Str
  | [] => []
  | x :: xs => xs.foldl (fun acc y => acc ++ sep ++ y) x

/-- One step of Python `text.split(sep)` for a non-empty separator,
with explicit fuel so that the definition is structural (fuel is always
instantiated with at least `s.length`, which suffices). -/
def splitOnSepGo (sep : Str) : Nat → Str → Str → List Str
  | 0, s, cur => [cur.reverse ++ s]
  | fuel + 1, s, cur =>
    match s with
    | [] => [cur.reverse]
    | c :: rest =>
      if sep ≠ [] ∧ sep.isPrefixOf s then
        cur.reverse :: splitOnSepGo sep fuel (s.drop sep.length) []
      else
        splitOnSepGo sep fuel rest (c :: cur)

/-- Python `text.split(sep)`. -/
def splitOnSep (sep : Str) (s : Str) : List Str :=
  splitOnSepGo sep (s.length + 1) s []

/-- Modelled from the spec: the greedy merge step of the recursive
character splitter, which packs adjacent split pieces (joined with the
separator they were split on) into chunks no longer than `n`.  The spec
(§4.1) describes the splitter only behaviourally — "it tries the coarsest
separator first and falls back to finer-grained ones only where a chunk
would otherwise exceed `chunk_size`" — and declares the character overlap
best-effort/approximate, so overlap is not modelled.  The splitter itself
is third-party library code not present under `src/`. -/
def mergeWithSep (n : Nat) (sep : Str) : Str → List Str → List Str
  | cur, [] => if cur = [] then [] else [cur]
  | cur, p :: ps =>
    if cur = [] then
      mergeWithSep n sep p ps
    else if (cur ++ sep ++ p).length ≤ n then
      mergeWithSep n sep (cur ++ sep ++ p) ps
    else
      cur :: mergeWithSep n sep p ps

/-- Modelled from the spec: the recursive character splitter
(`RecursiveCharacterTextSplitter` in the source, library code not under
`src/`).  Separators are attempted in priority order; a piece that still
exceeds `chunk_size` is split again with the finer separators; the empty
final separator splits into single characters.  Pieces are greedily merged
back up to `chunk_size`. -/
def recSplit (n : Nat) : List Str → Str → List Str
  | [], text =>
    if text.length ≤ n then [text]
    else mergeWithSep n [] [] (text.map (fun c => [c]))
  | sep :: rest, text =>
    if text.length ≤ n then [text]
    else
      mergeWithSep n sep []
        ((splitOnSep sep text).flatMap
          (fun p => if p.length ≤ n then [p] else recSplit n rest p))

/-- The separator priority list configured at `rag.py:55`:
`["\n\n", "\n", " ", ""]` — the final empty separator is the base case of
`recSplit`. -/
def ragSeparators : List Str :=
  [['\n', '\n'], ['\n'], [' ']]

/-- The chunker's splitter call with the configuration of `rag.py:51-57`:
`chunk_size=1000`, separators as above. -/
def split_text (text : Str) : List Str :=
  recSplit 1000 ragSeparators text

/-- Errors raised by the pipeline, one constructor per distinct `raise`
site of `rag.py` (the source wraps each in a generic `Exception` with a
message prefix; the constructor records which site fired). -/
inductive RagError
  | pdfReadError (path : String)
  | noTextExtracted
  | emptyInput
  | noValidChunks
  | noChunksProvided
  | embeddingsError (msg : String)
  | vectorStoreError (msg : String)
  | loadError (msg : String)
  | emptyQuestion
  | indexNotFound
  | missingApiKey
  | completionError (msg : String)
  deriving DecidableEq, Repr

/-- `get_text_chunks` (`rag.py:45-67`): reject blank input, split, drop
chunks whose trimmed length is not `> 50`, reject an empty remainder. -/
def get_text_chunks (text : Str) : Except RagError (List Str) :=
  if pyStrip text = [] then .error .emptyInput
  else
    let chunks := (split_text text).filter (fun c => 50 < (pyStrip c).length)
    if chunks = [] then .error .noValidChunks
    else .ok chunks

/-- The in-memory FAISS store, abstracted to what the source observably
stores and retrieves: the indexed chunk texts, in insertion order. -/
abbrev VectorStore := List Str

/-- The artifact `save_local` writes at the index path. -/
abbrev SavedIndex := VectorStore

/-- Content of the single storage location
(`<module dir>/faiss_index`): `none` before any ingestion. -/
abbrev Storage := Option SavedIndex

/-- External backends used by ingestion (`rag.py:24-91`); these are
third-party collaborators (PyPDF2, HuggingFaceEmbeddings, FAISS), so they
are parameters, not translated code.  `readPdf` returns the extracted
text of each page, or an error if opening or reading the file raises. -/
structure IngestEnv where
  pathExists : String → Bool
  readPdf : String → Except String (List Str)
  loadEmbeddings : Except String Unit
  fromTexts : List Str → Except String VectorStore

/-- The page-accumulation loop of `get_pdf_text` (`rag.py:27-38`): skip
missing files with an error, append each non-empty page text plus a
newline. -/
def get_pdf_text_go (env : IngestEnv) : List String → Str → Except RagError Str
  | [], acc => .ok acc
  | path :: rest, acc =>
    if env.pathExists path = false then .error (.pdfReadError path)
    else
      match env.readPdf path with
      | .error _ => .error (.pdfReadError path)
      | .ok pages =>
        get_pdf_text_go env rest
          (pages.foldl (fun t p => if p = [] then t else t ++ p ++ ['\n']) acc)

/-- `get_pdf_text` (`rag.py:24-43`): concatenate page texts across the
batch; fail if nothing non-blank was extracted. -/
def get_pdf_text (env : IngestEnv) (pdf_paths : List String) : Except RagError Str :=
  match get_pdf_text_go env pdf_paths [] with
  | .error e => .error e
  | .ok text => if pyStrip text = [] then .error .noTextExtracted else .ok text

/-- `get_vector_store` (`rag.py:69-91`): reject an empty chunk list, load
the embedding model, build the FAISS store, and only then `save_local` to
the fixed location — modelled as the sole write to the `Storage` cell. -/
def get_vector_store (env : IngestEnv) (text_chunks : List Str) (st : Storage) :
    Storage × Except RagError VectorStore :=
  if text_chunks = [] then (st, .error .noChunksProvided)
  else
    match env.loadEmbeddings with
    | .error m => (st, .error (.embeddingsError m))
    | .ok _ =>
      match env.fromTexts text_chunks with
      | .error m => (st, .error (.vectorStoreError m))
      | .ok vs => (some vs, .ok vs)

/-- The ingest pipeline as the source composes it
(`get_pdf_text` → `get_text_chunks` → `get_vector_store`). -/
def ingest (env : IngestEnv) (pdf_paths : List String) (st : Storage) :
    Storage × Except RagError VectorStore :=
  match get_pdf_text env pdf_paths with
  | .error e => (st, .error e)
  | .ok text =>
    match get_text_chunks text with
    | .error e => (st, .error e)
    | .ok chunks => get_vector_store env chunks st

/-- `os.path.join` for the one join the source performs. -/
def pathJoin (dir name : Str) : Str := dir ++ ['/'] ++ name

/-- The fixed index directory name, `"faiss_index"`. -/
def faissIndexName : Str := "faiss_index".data

/-- Index path computed by `get_vector_store` (`rag.py:82-83`). -/
def save_index_path (moduleDir : Str) : Str := pathJoin moduleDir faissIndexName

/-- Index path computed by `process_question` (`rag.py:111-112`). -/
def query_index_path (moduleDir : Str) : Str := pathJoin moduleDir faissIndexName

/-- Index path computed by `process_question_simple` (`rag.py:177-178`). -/
def query_simple_index_path (moduleDir : Str) : Str := pathJoin moduleDir faissIndexName

/-- Modelled from the spec: FAISS similarity search (library code not
under `src/`), per §4.3 — "returns the k chunks whose vectors are nearest
to `query_vector` under the index's distance metric, ordered best-first;
if the index holds fewer than `k` entries, returns all of them".
`score q c` is the similarity of chunk `c` to query `q` under the
embedding model; higher is nearer. -/
def searchIndex (score : Str → Str → ℤ) (entries : List Str) (q : Str) (k : Nat) :
    List Str :=
  (entries.insertionSort (fun a b => score q b ≤ score q a)).take k

/-- The retrieval both query entry points perform: `as_retriever` with
`search_kwargs={"k": 4}` (`rag.py:149-152`) and
`similarity_search(user_question, k=4)` (`rag.py:190`) are the same
FAISS search with `k = 4`. -/
def retrieveDocs (score : Str → Str → ℤ) (entries : List Str) (q : Str) : List Str :=
  searchIndex score entries q 4

/-- The ChatGroq configuration both entry points build
(`rag.py:129-134` and `rag.py:204-209`). -/
structure GroqConfig where
  model : Str
  temperature : ℚ
  maxTokens : Nat
  deriving DecidableEq

def groqCfg (model_name : Str) : GroqConfig :=
  { model := model_name, temperature := 3 / 10, maxTokens := 4096 }

/-- External backends used by the query paths: the embedding model, the
environment's API key, FAISS deserialization, the similarity scores of
the embedding space, and the hosted completion endpoint. -/
structure QueryEnv where
  loadEmbeddings : Except String Unit
  loadLocal : SavedIndex → Except String VectorStore
  apiKey : Option String
  score : Str → Str → ℤ
  complete : GroqConfig → Str → Except String Str

/-- The apostrophe character (U+0027), spliced into the template texts. -/
def apos : Char := '\''

/-- First fixed segment of the `ChatPromptTemplate` literal of
`rag.py:137-146`, up to the `{context}` placeholder (the template string
begins with a newline and 8-space indentation; lines 138-139 end in a
trailing space). -/
def chainPromptPre : Str :=
  ("\n        Answer the question as detailed as possible from the provided context. \n        If the answer is not in the provided context, just say \"Answer is not available in the context\". \n        Don".data)
    ++ [apos] ++ ("t provide incorrect information.\n        \n        Context: ".data)

/-- Segment of the chain-mode template between `{context}` and `{input}`. -/
def chainPromptMid : Str := "\n        Question: ".data

/-- Segment of the chain-mode template after `{input}`. -/
def chainPromptPost : Str := "\n        \n        Answer:\n        ".data

/-- The prompt the chain mode hands to the model: the template of
`rag.py:137-146` with `{context}` and `{input}` substituted. -/
def chainPrompt (context input : Str) : Str :=
  chainPromptPre ++ context ++ chainPromptMid ++ input ++ chainPromptPost

/-- First fixed segment of the f-string literal of `rag.py:212-221`, up
to the `{context}` placeholder. -/
def simplePromptPre : Str :=
  ("\n        Answer the question as detailed as possible from the provided context. \n        If the answer is not in the provided context, just say \"Answer is not available in the context\". \n        Don".data)
    ++ [apos] ++ ("t provide incorrect information.\n        \n        Context: ".data)

/-- Segment of the simple-mode f-string between `{context}` and
`{user_question}`. -/
def simplePromptMid : Str := "\n        Question: ".data

/-- Segment of the simple-mode f-string after `{user_question}`. -/
def simplePromptPost : Str := "\n        \n        Answer:\n        ".data

/-- The prompt the simple mode hands to the model: the f-string of
`rag.py:212-221` with `{context}` and `{user_question}` substituted. -/
def simplePrompt (context user_question : Str) : Str :=
  simplePromptPre ++ context ++ simplePromptMid ++ user_question ++ simplePromptPost

/-- The literal fallback sentence both templates instruct the model to
emit when the context is insufficient. -/
def fallbackSentence : Str := "Answer is not available in the context".data

/-- The string `process_question_simple` returns from local logic when
retrieval yields no documents (`rag.py:192-193`). -/
def noDocsMsg : Str := "No relevant documents found for your question.".data

/-- How both entry points surface the completion call's outcome: a raised
service error is wrapped, an answer is returned as-is. -/
def completeToResult (r : Except String Str) : Except RagError Str :=
  match r with
  | .error m => .error (.completionError m)
  | .ok answer => .ok answer

/-- `process_question` (`rag.py:93-164`), the chain-composed mode: blank
check, embedding-model load, index existence check at the fixed path,
deserialization, API-key check, then `retrieval_chain.invoke`, which runs
the `k = 4` retriever and stuffs the documents (joined with blank lines,
the chain library's document separator) into the template.  The
model-name check of `rag.py:100-104` only prints a warning and never
changes the result, so it has no observable effect to model. -/
def process_question (env : QueryEnv) (st : Storage) (user_question model_name : Str) :
    Except RagError Str :=
  if pyStrip user_question = [] then .error .emptyQuestion
  else
    match env.loadEmbeddings with
    | .error m => .error (.embeddingsError m)
    | .ok _ =>
      match st with
      | none => .error .indexNotFound
      | some saved =>
        match env.loadLocal saved with
        | .error m => .error (.loadError m)
        | .ok vector_store =>
          match env.apiKey with
          | none => .error .missingApiKey
          | some _ =>
            let docs := retrieveDocs env.score vector_store user_question
            let context := joinSep ['\n', '\n'] docs
            completeToResult
              (env.complete (groqCfg model_name) (chainPrompt context user_question))

/-- `process_question_simple` (`rag.py:166-229`), the simple mode: blank
check, embedding-model load, index existence check at the fixed path,
deserialization, `similarity_search(user_question, k=4)`, a local
early-return when no documents come back, API-key check, then one
completion call on the f-string prompt over the blank-line-joined
context. -/
def process_question_simple (env : QueryEnv) (st : Storage)
    (user_question model_name : Str) : Except RagError Str :=
  if pyStrip user_question = [] then .error .emptyQuestion
  else
    match env.loadEmbeddings with
    | .error m => .error (.embeddingsError m)
    | .ok _ =>
      match st with
      | none => .error .indexNotFound
      | some saved =>
        match env.loadLocal saved with
        | .error m => .error (.loadError m)
        | .ok vector_store =>
          let docs := retrieveDocs env.score vector_store user_question
          if docs = [] then .ok noDocsMsg
          else
            match env.apiKey with
            | none => .error .missingApiKey
            | some _ =>
              let context := joinSep ['\n', '\n'] docs
              completeToResult
                (env.complete (groqCfg model_name) (simplePrompt context user_question))

/-- Every chunk emitted by the greedy merge respects the size bound,
provided the running chunk and all pieces do. -/
lemma mergeWithSep_mem_length (n : Nat) (sep : Str) :
    ∀ (ps : List Str) (cur : Str), cur.length ≤ n → (∀ p ∈ ps, p.length ≤ n) →
      ∀ c ∈ mergeWithSep n sep cur ps, c.length ≤ n := by
  intro ps
  induction ps with
  | nil =>
    intro cur hcur _ c hc
    unfold mergeWithSep at hc
    split at hc
    · simp at hc
    · simp at hc
      subst hc
      exact hcur
  | cons p ps ih =>
    intro cur hcur hps c hc
    unfold mergeWithSep at hc
    split at hc
    · exact ih p (hps p (by simp)) (fun x hx => hps x (by simp [hx])) c hc
    · split at hc
      · next h =>
        exact ih _ h (fun x hx => hps x (by simp [hx])) c hc
      · rcases List.mem_cons.mp hc with rfl | hmem
        · exact hcur
        · exact ih p (hps p (by simp)) (fun x hx => hps x (by simp [hx])) c hmem

/-- Every chunk the recursive splitter produces has length at most the
configured chunk size (for a positive chunk size). -/
lemma recSplit_length_le (n : Nat) (hn : 1 ≤ n) :
    ∀ (seps : List Str) (text : Str), ∀ c ∈ recSplit n seps text, c.length ≤ n := by
  intro seps
  induction seps with
  | nil =>
    intro text c hc
    unfold recSplit at hc
    split at hc
    · next h =>
      simp at hc
      subst hc
      exact h
    · refine mergeWithSep_mem_length n [] _ [] (by simp) ?_ c hc
      intro p hp
      rcases List.mem_map.mp hp with ⟨ch, _, rfl⟩
      simpa using hn
  | cons sep rest ih =>
    intro text c hc
    unfold recSplit at hc
    split at hc
    · next h =>
      simp at hc
      subst hc
      exact h
    · refine mergeWithSep_mem_length n sep _ [] (by simp) ?_ c hc
      intro p hp
      rcases List.mem_flatMap.mp hp with ⟨piece, _, hpiece⟩
      by_cases hpl : piece.length ≤ n
      · simp [hpl] at hpiece
        subst hpiece
        exact hpl
      · simp [hpl] at hpiece
        exact ih piece p hpiece

/-- The ingest pipeline either leaves the storage cell untouched and
reports an error, or writes exactly the store it built and reports it. -/
lemma ingest_cases (env : IngestEnv) (paths : List String) (st : Storage) :
    (∃ e, ingest env paths st = (st, .error e)) ∨
    (∃ vs, ingest env paths st = (some vs, .ok vs)) := by
  rcases hp : get_pdf_text env paths with e | text
  · exact .inl ⟨e, by simp [ingest, hp]⟩
  · rcases hc : get_text_chunks text with e | chunks
    · exact .inl ⟨e, by simp [ingest, hp, hc]⟩
    · by_cases hnil : chunks = []
      · exact .inl ⟨.noChunksProvided, by simp [ingest, get_vector_store, hp, hc, hnil]⟩
      · rcases hle : env.loadEmbeddings with m | u
        · exact .inl ⟨.embeddingsError m,
            by simp [ingest, get_vector_store, hp, hc, hnil, hle]⟩
        · rcases hft : env.fromTexts chunks with m | vs
          · exact .inl ⟨.vectorStoreError m,
              by simp [ingest, get_vector_store, hp, hc, hnil, hle, hft]⟩
          · exact .inr ⟨vs, by simp [ingest, get_vector_store, hp, hc, hnil, hle, hft]⟩

/-- The two call sites build the same prompt text: the template literal
of `rag.py:137-146` and the f-string of `rag.py:212-221` are
byte-identical around their placeholders. -/
lemma prompt_modes_eq (context input : Str) :
    chainPrompt context input = simplePrompt context input := rfl

set_option maxRecDepth 100000 in
/-- The fallback sentence occurs verbatim in the fixed prefix of the
template. -/
lemma fallback_infix_pre : fallbackSentence <:+: chainPromptPre :=
  ⟨("\n        Answer the question as detailed as possible from the provided context. \n        If the answer is not in the provided context, just say \"".data),
   ("\". \n        Don".data) ++ [apos]
     ++ ("t provide incorrect information.\n        \n        Context: ".data),
   by decide⟩

/-- The fallback sentence occurs verbatim in every instantiated prompt. -/
lemma fallback_infix_prompt (context input : Str) :
    fallbackSentence <:+: chainPrompt context input :=
  fallback_infix_pre.trans
    ⟨[], context ++ chainPromptMid ++ input ++ chainPromptPost,
     by simp [chainPrompt]⟩

/-- Concrete test question (non-blank). -/
def qW : Str := "What converts sunlight into energy?".data

/-- Concrete model identifier. -/
def mnW : Str := "llama-3.3-70b-versatile".data

/-- Concrete chunk text, trimmed length well above 50. -/
def cW : Str :=
  "Chlorophyll absorbs sunlight to power photosynthesis in green plants.".data

/-- Concrete query environment: embedding model loads, deserialization
returns the saved texts, API key present, constant similarity score, and
a completion backend that always returns one fixed sentence. -/
def envC : QueryEnv where
  loadEmbeddings := .ok ()
  loadLocal := fun saved => .ok saved
  apiKey := some "gsk-test-key"
  score := fun _ _ => 0
  complete := fun _ _ => .ok ("Plants convert sunlight in chloroplasts.".data)

/-- Concrete ingestion environment whose PDF reader extracts no text. -/
def envI : IngestEnv where
  pathExists := fun _ => true
  readPdf := fun _ => .ok []
  loadEmbeddings := .ok ()
  fromTexts := fun ts => .ok ts

/-- Concrete ingestion environment whose single PDF page yields `cW`. -/
def envS : IngestEnv where
  pathExists := fun _ => true
  readPdf := fun _ => .ok [cW]
  loadEmbeddings := .ok ()
  fromTexts := fun ts => .ok ts

/-- C1: Ingestion is all-or-nothing: whenever any stage of
`get_pdf_text → get_text_chunks → get_vector_store` fails, the storage
location still holds exactly its previous content; the `save_local`
write happens only on a fully successful run (and then stores the store
that was built); in particular an empty document batch fails before any
write, leaving the storage untouched. -/
theorem C1_ingest_all_or_nothing (env : IngestEnv) (paths : List String) (st : Storage) :
    (∀ e, (ingest env paths st).2 = .error e → (ingest env paths st).1 = st) ∧
    (∀ vs, (ingest env paths st).2 = .ok vs → (ingest env paths st).1 = some vs) ∧
    ((ingest env [] st).1 = st ∧ ∃ e, (ingest env [] st).2 = .error e) := by
  refine ⟨?_, ?_, rfl, .noTextExtracted, rfl⟩
  · intro e he
    rcases ingest_cases env paths st with ⟨e', h⟩ | ⟨vs, h⟩
    · rw [h]
    · rw [h] at he
      simp at he
  · intro vs hvs
    rcases ingest_cases env paths st with ⟨e', h⟩ | ⟨vs', h⟩
    · rw [h] at hvs
      simp at hvs
    · rw [h] at hvs ⊢
      simp at hvs
      simp [hvs]

/-- C1 witness: a run whose PDF stage extracts nothing fails and leaves
a pre-existing index in place. -/
theorem C1_witness : (ingest envI ["doc.pdf"] (some [cW])).1 = some [cW] :=
  (C1_ingest_all_or_nothing envI ["doc.pdf"] (some [cW])).1 .noTextExtracted (by rfl)

/-- C2 counterexample: a chunk whose trimmed length is exactly 50 is
produced by the splitter and has trimmed length ≥ 50, yet
`get_text_chunks` does not keep it — the call fails with
`NoValidChunksError` because the filter requires length strictly
greater than 50 (`rag.py:60`). -/
theorem C2_counterexample :
    get_text_chunks (List.replicate 50 'a') = .error RagError.noValidChunks ∧
    List.replicate 50 'a' ∈ split_text (List.replicate 50 'a') ∧
    50 ≤ (pyStrip (List.replicate 50 'a')).length := by
  refine ⟨by rfl, by decide, by decide⟩

/-- C2 (amended): the post-filter keeps a produced chunk exactly when
its trimmed length is strictly greater than 50 characters: no returned
chunk has trimmed length ≤ 50, and every splitter chunk with trimmed
length > 50 is kept. -/
theorem C2_filter_contract (text : Str) (cs : List Str)
    (h : get_text_chunks text = .ok cs) :
    (∀ c ∈ cs, 50 < (pyStrip c).length) ∧
    (∀ c ∈ split_text text, 50 < (pyStrip c).length → c ∈ cs) := by
  simp only [get_text_chunks] at h
  split at h
  · simp at h
  · split at h
    · simp at h
    · simp at h
      subst h
      constructor
      · intro c hc
        simpa using (List.mem_filter.mp hc).2
      · intro c hc hlen
        exact List.mem_filter.mpr ⟨hc, by simpa using hlen⟩

/-- C2 witness: a 60-character chunk passes the filter and is kept. -/
theorem C2_witness :
    (∀ c ∈ [List.replicate 60 'a'], 50 < (pyStrip c).length) ∧
    (∀ c ∈ split_text (List.replicate 60 'a'),
      50 < (pyStrip c).length → c ∈ [List.replicate 60 'a']) :=
  C2_filter_contract (List.replicate 60 'a') [List.replicate 60 'a'] (by rfl)

/-- C9: the chunker fails with the empty-input error exactly on blank
input, fails with the no-valid-chunks error exactly when the
minimum-length filter removes every produced chunk, and otherwise
returns a non-empty chunk list. -/
theorem C9_chunker_error_contract (text : Str) :
    (get_text_chunks text = .error .emptyInput ↔ pyStrip text = []) ∧
    (get_text_chunks text = .error .noValidChunks ↔
      pyStrip text ≠ [] ∧
        (split_text text).filter (fun c => 50 < (pyStrip c).length) = []) ∧
    (∀ cs, get_text_chunks text = .ok cs → cs ≠ []) := by
  by_cases h1 : pyStrip text = [] <;>
    by_cases h2 : (split_text text).filter (fun c => 50 < (pyStrip c).length) = [] <;>
      simp [get_text_chunks, h1, h2]

/-- C9 witness: blank input and a non-blank input, instantiating the
contract's implications. -/
theorem C9_witness :
    get_text_chunks ([] : Str) = .error RagError.emptyInput ∧
    [List.replicate 60 'a'] ≠ ([] : List Str) :=
  ⟨(C9_chunker_error_contract []).1.mpr (by decide),
   (C9_chunker_error_contract (List.replicate 60 'a')).2.2 [List.replicate 60 'a'] (by rfl)⟩

/-- C10: the storage location is one fixed path — all three operations
join the rag module's directory with `"faiss_index"` — and a successful
ingestion overwrites that single global cell with the store it built. -/
theorem C10_fixed_storage_path (moduleDir : Str) (env : IngestEnv)
    (paths : List String) (st : Storage) (vs : VectorStore) :
    save_index_path moduleDir = query_index_path moduleDir ∧
    save_index_path moduleDir = query_simple_index_path moduleDir ∧
    save_index_path moduleDir = pathJoin moduleDir faissIndexName ∧
    ((ingest env paths st).2 = .ok vs → (ingest env paths st).1 = some vs) := by
  refine ⟨rfl, rfl, rfl, ?_⟩
  intro h
  rcases ingest_cases env paths st with ⟨e', heq⟩ | ⟨vs', heq⟩
  · rw [heq] at h
    simp at h
  · rw [heq] at h ⊢
    simp at h
    simp [h]

/-- C10 witness: a successful ingestion writes the built store into the
single global storage cell. -/
theorem C10_witness :
    (ingest envS ["doc.pdf"] none).1 = some [cW ++ ['\n']] :=
  (C10_fixed_storage_path [] envS ["doc.pdf"] none [cW ++ ['\n']]).2.2.2 (by rfl)

/-- C5: against a storage location at which ingestion has never been run
(the index path does not exist), both query operations fail with the
index-not-found error.  The theorem quantifies over every environment
with a working embedding loader, so the result in particular does not
depend on the deserializer or the completion backend — neither is ever
consulted: the existence check at `rag.py:114` / `rag.py:180` fires
before `load_local` and before any model call. -/
theorem C5_query_unindexed (env : QueryEnv) (q mn : Str)
    (hq : pyStrip q ≠ []) (he : env.loadEmbeddings = .ok ()) :
    process_question env none q mn = .error .indexNotFound ∧
    process_question_simple env none q mn = .error .indexNotFound := by
  constructor <;> simp [process_question, process_question_simple, hq, he]

/-- C5 witness: a concrete question against an empty storage location. -/
theorem C5_witness :
    process_question envC none qW mnW = .error RagError.indexNotFound ∧
    process_question_simple envC none qW mnW = .error RagError.indexNotFound :=
  C5_query_unindexed envC qW mnW (by decide) (by rfl)

/-- C8: every chunk the splitter produces — and hence every chunk
`get_text_chunks` returns — has length at most the configured
`chunk_size` of 1000 characters. -/
theorem C8_chunk_size_bound (text : Str) (cs : List Str)
    (h : get_text_chunks text = .ok cs) :
    (∀ c ∈ split_text text, c.length ≤ 1000) ∧ (∀ c ∈ cs, c.length ≤ 1000) := by
  have hall : ∀ c ∈ split_text text, c.length ≤ 1000 :=
    fun c hc => recSplit_length_le 1000 (by norm_num) ragSeparators text c hc
  refine ⟨hall, ?_⟩
  intro c hc
  simp only [get_text_chunks] at h
  split at h
  · simp at h
  · split at h
    · simp at h
    · simp at h
      subst h
      exact hall c (List.mem_filter.mp hc).1

/-- C8 witness: a concrete 60-character input. -/
theorem C8_witness :
    (∀ c ∈ split_text (List.replicate 60 'a'), c.length ≤ 1000) ∧
    (∀ c ∈ [List.replicate 60 'a'], c.length ≤ 1000) :=
  C8_chunk_size_bound (List.replicate 60 'a') [List.replicate 60 'a'] (by rfl)

/-- C4: the retrieval both query entry points perform returns the top-4
entries: the result has length `min 4 n`, is ordered by non-increasing
similarity score (best-first), every returned chunk scores at least as
high as every chunk left behind, and when the index holds fewer than 4
entries the result is a permutation of all of them (each exactly once). -/
theorem C4_top_k_retrieval (score : Str → Str → ℤ) (entries : List Str) (q : Str) :
    (retrieveDocs score entries q).length = min 4 entries.length ∧
    List.Sorted (fun a b => score q b ≤ score q a) (retrieveDocs score entries q) ∧
    (∀ a ∈ retrieveDocs score entries q,
      ∀ b ∈ (List.insertionSort (fun a b => score q b ≤ score q a) entries).drop 4,
        score q b ≤ score q a) ∧
    (entries.length < 4 → (retrieveDocs score entries q).Perm entries) := by
  haveI : IsTotal Str (fun a b => score q b ≤ score q a) := ⟨fun a b => le_total _ _⟩
  haveI : IsTrans Str (fun a b => score q b ≤ score q a) :=
    ⟨fun a b c h1 h2 => le_trans h2 h1⟩
  have hperm := List.perm_insertionSort (fun a b => score q b ≤ score q a) entries
  have hsorted := List.sorted_insertionSort (fun a b => score q b ≤ score q a) entries
  refine ⟨?_, ?_, ?_, ?_⟩
  · simp only [retrieveDocs, searchIndex]
    rw [List.length_take, hperm.length_eq]
  · exact List.Pairwise.sublist (List.take_sublist 4 _) hsorted
  · intro a ha b hb
    have hp : List.Pairwise (fun a b => score q b ≤ score q a)
        ((List.insertionSort (fun a b => score q b ≤ score q a) entries).take 4 ++
         (List.insertionSort (fun a b => score q b ≤ score q a) entries).drop 4) := by
      rw [List.take_append_drop]
      exact hsorted
    exact (List.pairwise_append.mp hp).2.2 a ha b hb
  · intro hlt
    simp only [retrieveDocs, searchIndex]
    rw [List.take_of_length_le (by rw [hperm.length_eq]; omega)]
    exact hperm

/-- C4 witness: a one-entry index returns that entry exactly once. -/
theorem C4_witness :
    (retrieveDocs (fun _ _ => (0 : ℤ)) [cW] qW).Perm [cW] :=
  (C4_top_k_retrieval (fun _ _ => (0 : ℤ)) [cW] qW).2.2.2 (by decide)

/-- C7: on the successful path both modes hand the completion backend a
prompt that is the shared fixed template instantiated with the retrieved
chunks joined in retrieval order by blank lines; the template contains
the literal fallback sentence verbatim. -/
theorem C7_prompt_to_backend (env : QueryEnv) (saved : SavedIndex) (vs : VectorStore)
    (q mn : Str) (key : String)
    (hq : pyStrip q ≠ []) (he : env.loadEmbeddings = .ok ())
    (hl : env.loadLocal saved = .ok vs) (hk : env.apiKey = some key)
    (hd : retrieveDocs env.score vs q ≠ []) :
    (∀ context input : Str, chainPrompt context input = simplePrompt context input) ∧
    fallbackSentence <:+:
      chainPrompt (joinSep ['\n', '\n'] (retrieveDocs env.score vs q)) q ∧
    process_question env (some saved) q mn =
      completeToResult (env.complete (groqCfg mn)
        (chainPrompt (joinSep ['\n', '\n'] (retrieveDocs env.score vs q)) q)) ∧
    process_question_simple env (some saved) q mn =
      completeToResult (env.complete (groqCfg mn)
        (simplePrompt (joinSep ['\n', '\n'] (retrieveDocs env.score vs q)) q)) := by
  refine ⟨prompt_modes_eq, fallback_infix_prompt _ _, ?_, ?_⟩
  · simp [process_question, hq, he, hl, hk]
  · simp [process_question_simple, hq, he, hl, hk, hd]

/-- C7 witness: a concrete successful simple-mode run hands the backend
exactly the instantiated template. -/
theorem C7_witness :
    process_question_simple envC (some [cW]) qW mnW =
      completeToResult (envC.complete (groqCfg mnW)
        (simplePrompt (joinSep ['\n', '\n'] (retrieveDocs envC.score [cW] qW)) qW)) :=
  (C7_prompt_to_backend envC [cW] [cW] qW mnW "gsk-test-key"
    (by decide) rfl rfl rfl (by decide)).2.2.2

/-- C3 counterexample: with the persisted index in a state whose
retrieval returns no documents, both modes obtain the same
(question, empty-context) pair, yet the chain mode still consults the
completion backend while the simple mode locally returns its fixed
sentence — the answers differ. -/
theorem C3_counterexample :
    retrieveDocs envC.score ([] : VectorStore) qW = [] ∧
    process_question envC (some ([] : SavedIndex)) qW mnW =
      .ok ("Plants convert sunlight in chloroplasts.".data) ∧
    process_question_simple envC (some ([] : SavedIndex)) qW mnW = .ok noDocsMsg ∧
    ("Plants convert sunlight in chloroplasts.".data : Str) ≠ noDocsMsg := by
  refine ⟨rfl, rfl, rfl, by decide⟩

/-- C3 (amended): whenever retrieval returns at least one document, the
chain-composed mode and the simple mode return exactly the same result —
same error on every failing stage, and the same completion-backend
answer on the same prompt otherwise. -/
theorem C3_modes_equivalent (env : QueryEnv) (st : Storage) (q mn : Str)
    (hd : ∀ saved vs, st = some saved → env.loadLocal saved = .ok vs →
      retrieveDocs env.score vs q ≠ []) :
    process_question env st q mn = process_question_simple env st q mn := by
  by_cases h1 : pyStrip q = []
  · simp [process_question, process_question_simple, h1]
  · rcases he : env.loadEmbeddings with m | u
    · simp [process_question, process_question_simple, h1, he]
    · rcases st with _ | saved
      · simp [process_question, process_question_simple, h1, he]
      · rcases hl : env.loadLocal saved with m | vs
        · simp [process_question, process_question_simple, h1, he, hl]
        · have hdoc := hd saved vs rfl hl
          rcases hk : env.apiKey with _ | key
          · simp [process_question, process_question_simple, h1, he, hl, hk, hdoc]
          · simp [process_question, process_question_simple, h1, he, hl, hk, hdoc,
                  prompt_modes_eq]

/-- C3 witness: on a one-chunk index both modes agree. -/
theorem C3_witness :
    process_question envC (some [cW]) qW mnW =
      process_question_simple envC (some [cW]) qW mnW :=
  C3_modes_equivalent envC (some [cW]) qW mnW (by
    intro saved vs hs hl
    have hs' := Option.some.inj hs
    subst hs'
    have hl' := Except.ok.inj hl
    subst hl'
    decide)

/-- C6 counterexample: the simple mode returns an in-band answer that
the completion backend never produced — the locally hard-coded sentence
of `rag.py:192-193` — when retrieval yields no documents, contradicting
the claim that no degraded answer mode is produced by local logic. -/
theorem C6_counterexample :
    retrieveDocs envC.score ([] : VectorStore) qW = [] ∧
    process_question_simple envC (some ([] : SavedIndex)) qW mnW = .ok noDocsMsg ∧
    envC.complete (groqCfg mnW) (simplePrompt (joinSep ['\n', '\n'] []) qW) =
      .ok ("Plants convert sunlight in chloroplasts.".data) ∧
    noDocsMsg ≠ ("Plants convert sunlight in chloroplasts.".data : Str) := by
  refine ⟨rfl, rfl, rfl, by decide⟩

/-- C6 (amended): every answer a query returns comes from the completion
backend on the constructed prompt, with one exception: the simple mode
locally returns the fixed no-documents sentence when retrieval yields no
documents.  Every other outcome is a failure. -/
theorem C6_answer_provenance (env : QueryEnv) (st : Storage) (q mn a : Str) :
    (process_question env st q mn = .ok a →
      ∃ saved vs, st = some saved ∧ env.loadLocal saved = .ok vs ∧
        env.complete (groqCfg mn)
          (chainPrompt (joinSep ['\n', '\n'] (retrieveDocs env.score vs q)) q) =
          .ok a) ∧
    (process_question_simple env st q mn = .ok a →
      (∃ saved vs, st = some saved ∧ env.loadLocal saved = .ok vs ∧
        retrieveDocs env.score vs q ≠ [] ∧
        env.complete (groqCfg mn)
          (simplePrompt (joinSep ['\n', '\n'] (retrieveDocs env.score vs q)) q) =
          .ok a) ∨
      a = noDocsMsg) := by
  constructor
  · intro h
    simp only [process_question] at h
    split at h
    · simp at h
    · split at h
      · simp at h
      · split at h
        · simp at h
        · next saved =>
          split at h
          · simp at h
          · next vs hl =>
            split at h
            · simp at h
            · refine ⟨saved, vs, rfl, hl, ?_⟩
              revert h
              unfold completeToResult
              split
              · intro h
                simp at h
              · next ans hc =>
                intro h
                have h' := Except.ok.inj h
                subst h'
                exact hc
  · intro h
    simp only [process_question_simple] at h
    split at h
    · simp at h
    · split at h
      · simp at h
      · split at h
        · simp at h
        · next saved =>
          split at h
          · simp at h
          · next vs hl =>
            split at h
            · next hnil =>
              have h' := Except.ok.inj h
              exact .inr h'.symm
            · next hnil =>
              split at h
              · simp at h
              · refine .inl ⟨saved, vs, rfl, hl, hnil, ?_⟩
                revert h
                unfold completeToResult
                split
                · intro h
                  simp at h
                · next ans hc =>
                  intro h
                  have h' := Except.ok.inj h
                  subst h'
                  exact hc

/-- C6 witness: a concrete successful chain-mode answer traced back to
the completion backend. -/
theorem C6_witness :
    ∃ saved vs, (some [cW] : Storage) = some saved ∧
      envC.loadLocal saved = .ok vs ∧
      envC.complete (groqCfg mnW)
        (chainPrompt (joinSep ['\n', '\n'] (retrieveDocs envC.score vs qW)) qW) =
        .ok ("Plants convert sunlight in chloroplasts.".data) :=
  (C6_answer_provenance envC (some [cW]) qW mnW
    ("Plants convert sunlight in chloroplasts.".data)).1 (by rfl)
